import Mathlib

/-!
Verification of the `aic-sdk-cpp` wrapper (src/include/aic.hpp, src/src/aic.cpp).

The repository is a header-mostly C++ wrapper over a closed, precompiled
speech-enhancement engine reached through a flat C ABI (the `aic_*` functions
declared in `aic.h`). The engine binary and its header are not part of the
source tree, so the engine is embedded as an environment: a record of response
functions, one per C entry point, over which all statements quantify. Each
wrapper operation is embedded as a pure Lean function of that environment which
returns the value the C++ member function returns together with the list of C
calls it performs, in order. Pointers are modelled as nullable addresses; the
wrapper never dereferences or offsets any pointer it is given, it only passes
them through, so an address is a faithful model. A C `float` is modelled by
its 32-bit pattern: the wrapper performs no floating-point arithmetic (the
pattern of `0.0f` is `0`).
-/

namespace AicCpp

/-- Raw nonnull handle or buffer address. -/
abbrev Handle := Nat

/-- A nullable C pointer: `none` is `nullptr`, `some a` a nonnull address. -/
abbrev Ptr := Option Handle

/-- A C `float` value, modelled by its 32-bit pattern; the pattern of the
zero-initialised local `0.0f` is `0`. -/
abbrev CFloat := Nat

/-- Modelled from the spec: the C header `aic.h` (the flat C ABI of the
closed engine, not present in `src/`) defines the `AicErrorCode` enumerators
that `aic::ErrorCode` re-exports one by one; since the header text is not in
the source tree the enumerators are assigned consecutive distinct values here,
in the order `aic.hpp` lists them. No theorem below depends on the particular
values; only the distinctness of the enumerators is ever used. -/
def AIC_ERROR_CODE_SUCCESS : Int := 0

def AIC_ERROR_CODE_NULL_POINTER : Int := 1

def AIC_ERROR_CODE_PARAMETER_OUT_OF_RANGE : Int := 2

def AIC_ERROR_CODE_MODEL_NOT_INITIALIZED : Int := 3

def AIC_ERROR_CODE_AUDIO_CONFIG_UNSUPPORTED : Int := 4

def AIC_ERROR_CODE_AUDIO_CONFIG_MISMATCH : Int := 5

def AIC_ERROR_CODE_ENHANCEMENT_NOT_ALLOWED : Int := 6

def AIC_ERROR_CODE_INTERNAL_ERROR : Int := 7

def AIC_ERROR_CODE_PARAMETER_FIXED : Int := 8

def AIC_ERROR_CODE_LICENSE_FORMAT_INVALID : Int := 9

def AIC_ERROR_CODE_LICENSE_VERSION_UNSUPPORTED : Int := 10

def AIC_ERROR_CODE_LICENSE_EXPIRED : Int := 11

def AIC_ERROR_CODE_MODEL_INVALID : Int := 12

def AIC_ERROR_CODE_MODEL_VERSION_UNSUPPORTED : Int := 13

def AIC_ERROR_CODE_MODEL_FILE_PATH_INVALID : Int := 14

def AIC_ERROR_CODE_FILE_SYSTEM_ERROR : Int := 15

def AIC_ERROR_CODE_MODEL_DATA_UNALIGNED : Int := 16

/-- Embeds `enum class aic::ErrorCode : int` (src/include/aic.hpp). A C++
scoped enumeration with underlying type `int` can hold every `int` value, and
`static_cast` between it and `int` is value-preserving and total, so the
embedding wraps an arbitrary `Int`. -/
structure ErrorCode where
  val : Int
  deriving DecidableEq, Repr

/-- Enumerator `ErrorCode::Success`. -/
def ErrorCode.Success : ErrorCode := ⟨AIC_ERROR_CODE_SUCCESS⟩

/-- Enumerator `ErrorCode::NullPointer`. -/
def ErrorCode.NullPointer : ErrorCode := ⟨AIC_ERROR_CODE_NULL_POINTER⟩

/-- Enumerator `ErrorCode::ParameterOutOfRange`. -/
def ErrorCode.ParameterOutOfRange : ErrorCode := ⟨AIC_ERROR_CODE_PARAMETER_OUT_OF_RANGE⟩

/-- Enumerator `ErrorCode::ModelNotInitialized`. -/
def ErrorCode.ModelNotInitialized : ErrorCode := ⟨AIC_ERROR_CODE_MODEL_NOT_INITIALIZED⟩

/-- Enumerator `ErrorCode::AudioConfigUnsupported`. -/
def ErrorCode.AudioConfigUnsupported : ErrorCode := ⟨AIC_ERROR_CODE_AUDIO_CONFIG_UNSUPPORTED⟩

/-- Enumerator `ErrorCode::AudioConfigMismatch`. -/
def ErrorCode.AudioConfigMismatch : ErrorCode := ⟨AIC_ERROR_CODE_AUDIO_CONFIG_MISMATCH⟩

/-- Enumerator `ErrorCode::EnhancementNotAllowed`. -/
def ErrorCode.EnhancementNotAllowed : ErrorCode := ⟨AIC_ERROR_CODE_ENHANCEMENT_NOT_ALLOWED⟩

/-- Enumerator `ErrorCode::InternalError`. -/
def ErrorCode.InternalError : ErrorCode := ⟨AIC_ERROR_CODE_INTERNAL_ERROR⟩

/-- Enumerator `ErrorCode::ParameterFixed`. -/
def ErrorCode.ParameterFixed : ErrorCode := ⟨AIC_ERROR_CODE_PARAMETER_FIXED⟩

/-- Enumerator `ErrorCode::LicenseFormatInvalid`. -/
def ErrorCode.LicenseFormatInvalid : ErrorCode := ⟨AIC_ERROR_CODE_LICENSE_FORMAT_INVALID⟩

/-- Enumerator `ErrorCode::LicenseVersionUnsupported`. -/
def ErrorCode.LicenseVersionUnsupported : ErrorCode := ⟨AIC_ERROR_CODE_LICENSE_VERSION_UNSUPPORTED⟩

/-- Enumerator `ErrorCode::LicenseExpired`. -/
def ErrorCode.LicenseExpired : ErrorCode := ⟨AIC_ERROR_CODE_LICENSE_EXPIRED⟩

/-- Enumerator `ErrorCode::ModelInvalid`. -/
def ErrorCode.ModelInvalid : ErrorCode := ⟨AIC_ERROR_CODE_MODEL_INVALID⟩

/-- Enumerator `ErrorCode::ModelVersionUnsupported`. -/
def ErrorCode.ModelVersionUnsupported : ErrorCode := ⟨AIC_ERROR_CODE_MODEL_VERSION_UNSUPPORTED⟩

/-- Enumerator `ErrorCode::ModelFilePathInvalid`. -/
def ErrorCode.ModelFilePathInvalid : ErrorCode := ⟨AIC_ERROR_CODE_MODEL_FILE_PATH_INVALID⟩

/-- Enumerator `ErrorCode::FileSystemError`. -/
def ErrorCode.FileSystemError : ErrorCode := ⟨AIC_ERROR_CODE_FILE_SYSTEM_ERROR⟩

/-- Enumerator `ErrorCode::ModelDataUnaligned`. -/
def ErrorCode.ModelDataUnaligned : ErrorCode := ⟨AIC_ERROR_CODE_MODEL_DATA_UNALIGNED⟩

/-- Modelled from the spec: the value of `AIC_PROCESSOR_PARAMETER_BYPASS`
from the absent C header `aic.h`. No theorem depends on the value. -/
def AIC_PROCESSOR_PARAMETER_BYPASS : Int := 0

/-- Modelled from the spec: `AIC_PROCESSOR_PARAMETER_ENHANCEMENT_LEVEL`. -/
def AIC_PROCESSOR_PARAMETER_ENHANCEMENT_LEVEL : Int := 1

/-- Modelled from the spec: `AIC_PROCESSOR_PARAMETER_VOICE_GAIN`. -/
def AIC_PROCESSOR_PARAMETER_VOICE_GAIN : Int := 2

/-- Embeds `enum class aic::ProcessorParameter : int` (src/include/aic.hpp),
as a wrapped `Int` for the same reason as `ErrorCode`. -/
structure ProcessorParameter where
  val : Int
  deriving DecidableEq, Repr

/-- Enumerator `ProcessorParameter::Bypass`. -/
def ProcessorParameter.Bypass : ProcessorParameter := ⟨AIC_PROCESSOR_PARAMETER_BYPASS⟩

/-- Enumerator `ProcessorParameter::EnhancementLevel`. -/
def ProcessorParameter.EnhancementLevel : ProcessorParameter :=
  ⟨AIC_PROCESSOR_PARAMETER_ENHANCEMENT_LEVEL⟩

/-- Enumerator `ProcessorParameter::VoiceGain`. -/
def ProcessorParameter.VoiceGain : ProcessorParameter := ⟨AIC_PROCESSOR_PARAMETER_VOICE_GAIN⟩

/-- Modelled from the spec: `AIC_VAD_PARAMETER_SPEECH_HOLD_DURATION` from the
absent C header `aic.h`. No theorem depends on the value. -/
def AIC_VAD_PARAMETER_SPEECH_HOLD_DURATION : Int := 0

/-- Modelled from the spec: `AIC_VAD_PARAMETER_SENSITIVITY`. -/
def AIC_VAD_PARAMETER_SENSITIVITY : Int := 1

/-- Modelled from the spec: `AIC_VAD_PARAMETER_MINIMUM_SPEECH_DURATION`. -/
def AIC_VAD_PARAMETER_MINIMUM_SPEECH_DURATION : Int := 2

/-- Embeds `enum class aic::VadParameter : int` (src/include/aic.hpp). -/
structure VadParameter where
  val : Int
  deriving DecidableEq, Repr

/-- Enumerator `VadParameter::SpeechHoldDuration`. -/
def VadParameter.SpeechHoldDuration : VadParameter := ⟨AIC_VAD_PARAMETER_SPEECH_HOLD_DURATION⟩

/-- Enumerator `VadParameter::Sensitivity`. -/
def VadParameter.Sensitivity : VadParameter := ⟨AIC_VAD_PARAMETER_SENSITIVITY⟩

/-- Enumerator `VadParameter::MinimumSpeechDuration`. -/
def VadParameter.MinimumSpeechDuration : VadParameter :=
  ⟨AIC_VAD_PARAMETER_MINIMUM_SPEECH_DURATION⟩

/-- One invocation of a C entry point of the engine, with the argument values
the wrapper passed. Audio buffer pointers are carried as addresses: the
wrapper forwards them untouched and never reads or writes buffer contents. -/
inductive AicCall where
  | modelCreateFromFile (filePath : String)
  | modelCreateFromBuffer (buffer : Ptr) (bufferLen : Nat)
  | modelDestroy (model : Handle)
  | modelGetId (model : Ptr)
  | modelGetOptimalSampleRate (model : Ptr)
  | modelGetOptimalNumFrames (model : Ptr) (sampleRate : Nat)
  | processorCreate (model : Ptr) (licenseKey : String)
  | processorDestroy (processor : Handle)
  | processorInitialize (processor : Ptr) (sampleRate : Nat) (numChannels : Nat)
      (numFrames : Nat) (allowVariableFrames : Bool)
  | processorProcessPlanar (processor : Ptr) (audio : Ptr) (numChannels : Nat) (numFrames : Nat)
  | processorProcessInterleaved (processor : Ptr) (audio : Ptr) (numChannels : Nat)
      (numFrames : Nat)
  | processorProcessSequential (processor : Ptr) (audio : Ptr) (numChannels : Nat)
      (numFrames : Nat)
  | processorContextCreate (processor : Ptr)
  | processorContextDestroy (context : Handle)
  | processorContextReset (context : Ptr)
  | processorContextSetParameter (context : Ptr) (parameter : Int) (value : CFloat)
  | processorContextGetParameter (context : Ptr) (parameter : Int)
  | processorContextGetOutputDelay (context : Ptr)
  | vadContextCreate (processor : Ptr)
  | vadContextDestroy (context : Handle)
  | vadContextIsSpeechDetected (context : Ptr)
  | vadContextSetParameter (context : Ptr) (parameter : Int) (value : CFloat)
  | vadContextGetParameter (context : Ptr) (parameter : Int)
  deriving DecidableEq, Repr

/-- The names of the `aic_*` C entry points reachable from the wrapper. -/
inductive AicEntry where
  | aicModelCreateFromFile
  | aicModelCreateFromBuffer
  | aicModelDestroy
  | aicModelGetId
  | aicModelGetOptimalSampleRate
  | aicModelGetOptimalNumFrames
  | aicProcessorCreate
  | aicProcessorDestroy
  | aicProcessorInit
  | aicProcessorProcessPlanar
  | aicProcessorProcessInterleaved
  | aicProcessorProcessSequential
  | aicProcessorContextCreate
  | aicProcessorContextDestroy
  | aicProcessorContextReset
  | aicProcessorContextSetParameter
  | aicProcessorContextGetParameter
  | aicProcessorContextGetOutputDelay
  | aicVadContextCreate
  | aicVadContextDestroy
  | aicVadContextIsSpeechDetected
  | aicVadContextSetParameter
  | aicVadContextGetParameter
  deriving DecidableEq, Repr

/-- The entry point a call invokes, forgetting the arguments. -/
def AicCall.entry : AicCall → AicEntry
  | .modelCreateFromFile _ => .aicModelCreateFromFile
  | .modelCreateFromBuffer _ _ => .aicModelCreateFromBuffer
  | .modelDestroy _ => .aicModelDestroy
  | .modelGetId _ => .aicModelGetId
  | .modelGetOptimalSampleRate _ => .aicModelGetOptimalSampleRate
  | .modelGetOptimalNumFrames _ _ => .aicModelGetOptimalNumFrames
  | .processorCreate _ _ => .aicProcessorCreate
  | .processorDestroy _ => .aicProcessorDestroy
  | .processorInitialize _ _ _ _ _ => .aicProcessorInit
  | .processorProcessPlanar _ _ _ _ => .aicProcessorProcessPlanar
  | .processorProcessInterleaved _ _ _ _ => .aicProcessorProcessInterleaved
  | .processorProcessSequential _ _ _ _ => .aicProcessorProcessSequential
  | .processorContextCreate _ => .aicProcessorContextCreate
  | .processorContextDestroy _ => .aicProcessorContextDestroy
  | .processorContextReset _ => .aicProcessorContextReset
  | .processorContextSetParameter _ _ _ => .aicProcessorContextSetParameter
  | .processorContextGetParameter _ _ => .aicProcessorContextGetParameter
  | .processorContextGetOutputDelay _ => .aicProcessorContextGetOutputDelay
  | .vadContextCreate _ => .aicVadContextCreate
  | .vadContextDestroy _ => .aicVadContextDestroy
  | .vadContextIsSpeechDetected _ => .aicVadContextIsSpeechDetected
  | .vadContextSetParameter _ _ _ => .aicVadContextSetParameter
  | .vadContextGetParameter _ _ => .aicVadContextGetParameter

/-- Behaviour of the closed engine, one response function per C entry point:
for each argument tuple, the status code the call returns and, for calls with
an out parameter, the value found in the caller's local after the call
returns (`none` models a call that left the zero-initialised local untouched;
for handle out parameters, the final value of the local raw pointer that the
caller initialised to `nullptr`). The engine binary is not part of the
repository, so every theorem quantifies over the engine. -/
structure Engine where
  modelCreateFromFile : String → Int × Ptr
  modelCreateFromBuffer : Ptr → Nat → Int × Ptr
  modelGetId : Ptr → Option String
  modelGetOptimalSampleRate : Ptr → Int × Option Nat
  modelGetOptimalNumFrames : Ptr → Nat → Int × Option Nat
  processorCreate : Ptr → String → Int × Ptr
  processorInitialize : Ptr → Nat → Nat → Nat → Bool → Int
  processorProcessPlanar : Ptr → Ptr → Nat → Nat → Int
  processorProcessInterleaved : Ptr → Ptr → Nat → Nat → Int
  processorProcessSequential : Ptr → Ptr → Nat → Nat → Int
  processorContextCreate : Ptr → Int × Ptr
  processorContextReset : Ptr → Int
  processorContextSetParameter : Ptr → Int → CFloat → Int
  processorContextGetParameter : Ptr → Int → Int × Option CFloat
  processorContextGetOutputDelay : Ptr → Int × Option Nat
  vadContextCreate : Ptr → Int × Ptr
  vadContextIsSpeechDetected : Ptr → Int × Option Bool
  vadContextSetParameter : Ptr → Int → CFloat → Int
  vadContextGetParameter : Ptr → Int → Int × Option CFloat

/-- Embeds `template <typename T> struct aic::Result` (src/include/aic.hpp). -/
structure Result (T : Type) where
  value : T
  error : ErrorCode
  deriving DecidableEq

/-- Embeds the default constructor
`Result() : value(), error(ErrorCode::InternalError)`; `default` stands for
the default-constructed value of `T`. -/
def Result.mkDefault (T : Type) [Inhabited T] : Result T :=
  ⟨default, ErrorCode.InternalError⟩

/-- Embeds `Result::ok`: true exactly when `error == ErrorCode::Success`. -/
def Result.ok {T : Type} (r : Result T) : Bool :=
  decide (r.error = ErrorCode.Success)

/-- Embeds `class aic::Model` (src/include/aic.hpp): its only data member is
the raw handle `::AicModel* model_`. -/
structure Model where
  model_ : Ptr
  deriving DecidableEq, Repr

/-- Embeds the private default constructor `Model() : model_(nullptr)`, the
empty wrapper used when creation fails. -/
instance : Inhabited Model := ⟨⟨none⟩⟩

/-- Embeds `Model::create_from_file` (src/src/aic.cpp): calls
`aic_model_create_from_file` on a local raw pointer initialised to `nullptr`;
on `AIC_ERROR_CODE_SUCCESS` wraps the written handle with
`ErrorCode::Success`, otherwise returns the empty wrapper together with the
status code cast to `ErrorCode`. -/
def Model.create_from_file (eng : Engine) (file_path : String) :
    Result Model × List AicCall :=
  let r := eng.modelCreateFromFile file_path
  if r.1 = AIC_ERROR_CODE_SUCCESS then
    (⟨⟨r.2⟩, ErrorCode.Success⟩, [AicCall.modelCreateFromFile file_path])
  else
    (⟨⟨none⟩, ⟨r.1⟩⟩, [AicCall.modelCreateFromFile file_path])

/-- Embeds `Model::create_from_buffer` (src/src/aic.cpp), the same creation
pattern over `aic_model_create_from_buffer`. -/
def Model.create_from_buffer (eng : Engine) (buffer : Ptr) (buffer_len : Nat) :
    Result Model × List AicCall :=
  let r := eng.modelCreateFromBuffer buffer buffer_len
  if r.1 = AIC_ERROR_CODE_SUCCESS then
    (⟨⟨r.2⟩, ErrorCode.Success⟩, [AicCall.modelCreateFromBuffer buffer buffer_len])
  else
    (⟨⟨none⟩, ⟨r.1⟩⟩, [AicCall.modelCreateFromBuffer buffer buffer_len])

/-- Embeds `Model::get_id`: returns the C string produced by
`aic_model_get_id` when it is nonnull and the empty string otherwise. -/
def Model.get_id (eng : Engine) (m : Model) : String × List AicCall :=
  let id := eng.modelGetId m.model_
  (Option.getD id "", [AicCall.modelGetId m.model_])

/-- Embeds `Model::get_optimal_sample_rate`: a local initialised to `0` is
passed by address to `aic_model_get_optimal_sample_rate` and returned. The
status code only feeds a debug-mode `assert` (a no-op in release builds) and
has no effect on the returned value. -/
def Model.get_optimal_sample_rate (eng : Engine) (m : Model) : Nat × List AicCall :=
  let r := eng.modelGetOptimalSampleRate m.model_
  (Option.getD r.2 0, [AicCall.modelGetOptimalSampleRate m.model_])

/-- Embeds `Model::get_optimal_num_frames`: same pattern over
`aic_model_get_optimal_num_frames`, with the sample rate forwarded. -/
def Model.get_optimal_num_frames (eng : Engine) (m : Model) (sample_rate : Nat) :
    Nat × List AicCall :=
  let r := eng.modelGetOptimalNumFrames m.model_ sample_rate
  (Option.getD r.2 0, [AicCall.modelGetOptimalNumFrames m.model_ sample_rate])

/-- Embeds the destructor `Model::~Model`: calls `aic_model_destroy` on the
stored handle exactly when it is nonnull. -/
def Model.dtor (m : Model) : List AicCall :=
  match m.model_ with
  | some h => [AicCall.modelDestroy h]
  | none => []

/-- Embeds the move constructor `Model(Model&&)`: returns the newly
constructed object and the moved-from source; no engine call is made. -/
def Model.move_ctor (other : Model) : Model × Model :=
  (⟨other.model_⟩, ⟨none⟩)

/-- Embeds the move assignment `Model& operator=(Model&&)`. `same` is the
outcome of the address identity test `this == &other`; the result is the
state of `*this` after the call, the state of `other` after the call, and the
destroy calls made, in order. When `same` is true the two returned objects
are the one unchanged object. -/
def Model.move_assign (self other : Model) (same : Bool) : Model × Model × List AicCall :=
  if same then (self, other, [])
  else
    (⟨other.model_⟩, ⟨none⟩,
      match self.model_ with
      | some h => [AicCall.modelDestroy h]
      | none => [])

/-- Embeds `struct aic::ProcessorConfig` (src/include/aic.hpp) with the
member initialisers of its fields as Lean default values. -/
structure ProcessorConfig where
  sample_rate : Nat := 0
  num_channels : Nat := 1
  num_frames : Nat := 0
  allow_variable_frames : Bool := false
  deriving DecidableEq, Repr

/-- Embeds `ProcessorConfig::optimal`: a default-constructed config whose
`sample_rate` is the model's optimal sample rate, whose `num_frames` is the
model's optimal frame count queried at that sample rate, with
`num_channels = 1` and `allow_variable_frames = false`. -/
def ProcessorConfig.optimal (eng : Engine) (model : Model) :
    ProcessorConfig × List AicCall :=
  let sr := Model.get_optimal_sample_rate eng model
  let nf := Model.get_optimal_num_frames eng model sr.1
  (⟨sr.1, 1, nf.1, false⟩, sr.2 ++ nf.2)

/-- Embeds `ProcessorConfig::with_num_channels`: copies the receiver (a
`const` member function) and overwrites `num_channels`. -/
def ProcessorConfig.with_num_channels (c : ProcessorConfig) (channels : Nat) :
    ProcessorConfig :=
  { c with num_channels := channels }

/-- Embeds `ProcessorConfig::with_allow_variable_frames`: copies the receiver
(a `const` member function) and overwrites `allow_variable_frames`. -/
def ProcessorConfig.with_allow_variable_frames (c : ProcessorConfig) (allow : Bool) :
    ProcessorConfig :=
  { c with allow_variable_frames := allow }

/-- Embeds `class aic::ProcessorContext` (src/include/aic.hpp): its only data
member is the raw handle `::AicProcessorContext* context_`. -/
structure ProcessorContext where
  context_ : Ptr
  deriving DecidableEq, Repr

/-- Embeds the private default constructor
`ProcessorContext() : context_(nullptr)`. -/
instance : Inhabited ProcessorContext := ⟨⟨none⟩⟩

/-- Embeds `ProcessorContext::reset`: forwards the handle to
`aic_processor_context_reset` and casts the status to `ErrorCode`. -/
def ProcessorContext.reset (eng : Engine) (c : ProcessorContext) :
    ErrorCode × List AicCall :=
  (⟨eng.processorContextReset c.context_⟩, [AicCall.processorContextReset c.context_])

/-- Embeds `ProcessorContext::set_parameter`: forwards the handle, the
parameter (the `static_cast` chain through `int` to the C enumeration is
value-preserving, hence `parameter.val`) and the value unchanged to
`aic_processor_context_set_parameter`, casting the status to `ErrorCode`. -/
def ProcessorContext.set_parameter (eng : Engine) (c : ProcessorContext)
    (parameter : ProcessorParameter) (value : CFloat) : ErrorCode × List AicCall :=
  (⟨eng.processorContextSetParameter c.context_ parameter.val value⟩,
    [AicCall.processorContextSetParameter c.context_ parameter.val value])

/-- Embeds `ProcessorContext::get_parameter`: a local initialised to `0.0f`
is passed by address to `aic_processor_context_get_parameter` and returned.
The status code only feeds a debug-mode `assert` and has no effect on the
returned value. -/
def ProcessorContext.get_parameter (eng : Engine) (c : ProcessorContext)
    (parameter : ProcessorParameter) : CFloat × List AicCall :=
  let r := eng.processorContextGetParameter c.context_ parameter.val
  (Option.getD r.2 0, [AicCall.processorContextGetParameter c.context_ parameter.val])

/-- Embeds `ProcessorContext::get_output_delay`: a local initialised to `0`
is passed by address to `aic_processor_context_get_output_delay` and
returned; the status code only feeds a debug-mode `assert`. -/
def ProcessorContext.get_output_delay (eng : Engine) (c : ProcessorContext) :
    Nat × List AicCall :=
  let r := eng.processorContextGetOutputDelay c.context_
  (Option.getD r.2 0, [AicCall.processorContextGetOutputDelay c.context_])

/-- Embeds the destructor `ProcessorContext::~ProcessorContext`. -/
def ProcessorContext.dtor (c : ProcessorContext) : List AicCall :=
  match c.context_ with
  | some h => [AicCall.processorContextDestroy h]
  | none => []

/-- Embeds the move constructor `ProcessorContext(ProcessorContext&&)`. -/
def ProcessorContext.move_ctor (other : ProcessorContext) :
    ProcessorContext × ProcessorContext :=
  (⟨other.context_⟩, ⟨none⟩)

/-- Embeds `ProcessorContext& operator=(ProcessorContext&&)`; see
`Model.move_assign` for the reading of `same`. -/
def ProcessorContext.move_assign (self other : ProcessorContext) (same : Bool) :
    ProcessorContext × ProcessorContext × List AicCall :=
  if same then (self, other, [])
  else
    (⟨other.context_⟩, ⟨none⟩,
      match self.context_ with
      | some h => [AicCall.processorContextDestroy h]
      | none => [])

/-- Embeds `class aic::VadContext` (src/include/aic.hpp): its only data
member is the raw handle `::AicVadContext* context_`. -/
structure VadContext where
  context_ : Ptr
  deriving DecidableEq, Repr

/-- Embeds the private default constructor `VadContext() : context_(nullptr)`. -/
instance : Inhabited VadContext := ⟨⟨none⟩⟩

/-- Embeds `VadContext::is_speech_detected`: a local initialised to `false`
is passed by address to `aic_vad_context_is_speech_detected` and returned;
the status code only feeds a debug-mode `assert`. -/
def VadContext.is_speech_detected (eng : Engine) (c : VadContext) :
    Bool × List AicCall :=
  let r := eng.vadContextIsSpeechDetected c.context_
  (Option.getD r.2 false, [AicCall.vadContextIsSpeechDetected c.context_])

/-- Embeds `VadContext::set_parameter`: forwards handle, parameter value and
float unchanged to `aic_vad_context_set_parameter`, casting the status. -/
def VadContext.set_parameter (eng : Engine) (c : VadContext)
    (parameter : VadParameter) (value : CFloat) : ErrorCode × List AicCall :=
  (⟨eng.vadContextSetParameter c.context_ parameter.val value⟩,
    [AicCall.vadContextSetParameter c.context_ parameter.val value])

/-- Embeds `VadContext::get_parameter`: a local initialised to `0.0f` is
passed by address to `aic_vad_context_get_parameter` and returned; the status
code only feeds a debug-mode `assert`. -/
def VadContext.get_parameter (eng : Engine) (c : VadContext)
    (parameter : VadParameter) : CFloat × List AicCall :=
  let r := eng.vadContextGetParameter c.context_ parameter.val
  (Option.getD r.2 0, [AicCall.vadContextGetParameter c.context_ parameter.val])

/-- Embeds the destructor `VadContext::~VadContext`. -/
def VadContext.dtor (c : VadContext) : List AicCall :=
  match c.context_ with
  | some h => [AicCall.vadContextDestroy h]
  | none => []

/-- Embeds the move constructor `VadContext(VadContext&&)`. -/
def VadContext.move_ctor (other : VadContext) : VadContext × VadContext :=
  (⟨other.context_⟩, ⟨none⟩)

/-- Embeds `VadContext& operator=(VadContext&&)`; see `Model.move_assign`
for the reading of `same`. -/
def VadContext.move_assign (self other : VadContext) (same : Bool) :
    VadContext × VadContext × List AicCall :=
  if same then (self, other, [])
  else
    (⟨other.context_⟩, ⟨none⟩,
      match self.context_ with
      | some h => [AicCall.vadContextDestroy h]
      | none => [])

/-- Embeds `class aic::Processor` (src/include/aic.hpp): its only data member
is the raw handle `::AicProcessor* processor_`. -/
structure Processor where
  processor_ : Ptr
  deriving DecidableEq, Repr

/-- Embeds the private default constructor `Processor() : processor_(nullptr)`. -/
instance : Inhabited Processor := ⟨⟨none⟩⟩

/-- Embeds `Processor::create` (src/src/aic.cpp): the creation pattern over
`aic_processor_create`, forwarding the model's raw handle and the license
key. The one-time process-global `aic_set_sdk_wrapper_id(1)` registration
(guarded by a function-local static) is omitted from the call list: it
happens at most once per process and no claim concerns it. -/
def Processor.create (eng : Engine) (model : Model) (license_key : String) :
    Result Processor × List AicCall :=
  let r := eng.processorCreate model.model_ license_key
  if r.1 = AIC_ERROR_CODE_SUCCESS then
    (⟨⟨r.2⟩, ErrorCode.Success⟩, [AicCall.processorCreate model.model_ license_key])
  else
    (⟨⟨none⟩, ⟨r.1⟩⟩, [AicCall.processorCreate model.model_ license_key])

/-- Embeds `Processor::initialize` (src/include/aic.hpp, lines 777-783):
forwards the handle and configuration unchanged to
`aic_processor_initialize` and casts the status to `ErrorCode`.
No wrapper-side state is recorded and nothing is checked before the call. -/
def Processor.initialize (eng : Engine) (p : Processor) (sample_rate : Nat)
    (num_channels : Nat) (num_frames : Nat) (allow_variable_frames : Bool) :
    ErrorCode × List AicCall :=
  (⟨eng.processorInitialize p.processor_ sample_rate num_channels num_frames
      allow_variable_frames⟩,
    [AicCall.processorInitialize p.processor_ sample_rate num_channels num_frames
      allow_variable_frames])

/-- Embeds `Processor::process_planar`: forwards the handle, the planar
buffer pointer array and the channel and frame counts unchanged to
`aic_processor_process_planar`, casting the status. No precondition is
checked by the wrapper before the call. -/
def Processor.process_planar (eng : Engine) (p : Processor) (audio : Ptr)
    (num_channels : Nat) (num_frames : Nat) : ErrorCode × List AicCall :=
  (⟨eng.processorProcessPlanar p.processor_ audio num_channels num_frames⟩,
    [AicCall.processorProcessPlanar p.processor_ audio num_channels num_frames])

/-- Embeds `Processor::process_interleaved`: same shape over
`aic_processor_process_interleaved`. -/
def Processor.process_interleaved (eng : Engine) (p : Processor) (audio : Ptr)
    (num_channels : Nat) (num_frames : Nat) : ErrorCode × List AicCall :=
  (⟨eng.processorProcessInterleaved p.processor_ audio num_channels num_frames⟩,
    [AicCall.processorProcessInterleaved p.processor_ audio num_channels num_frames])

/-- Embeds `Processor::process_sequential`: same shape over
`aic_processor_process_sequential`. -/
def Processor.process_sequential (eng : Engine) (p : Processor) (audio : Ptr)
    (num_channels : Nat) (num_frames : Nat) : ErrorCode × List AicCall :=
  (⟨eng.processorProcessSequential p.processor_ audio num_channels num_frames⟩,
    [AicCall.processorProcessSequential p.processor_ audio num_channels num_frames])

/-- Embeds `Processor::create_context` (src/src/aic.cpp): the creation
pattern over `aic_processor_context_create`. -/
def Processor.create_context (eng : Engine) (p : Processor) :
    Result ProcessorContext × List AicCall :=
  let r := eng.processorContextCreate p.processor_
  if r.1 = AIC_ERROR_CODE_SUCCESS then
    (⟨⟨r.2⟩, ErrorCode.Success⟩, [AicCall.processorContextCreate p.processor_])
  else
    (⟨⟨none⟩, ⟨r.1⟩⟩, [AicCall.processorContextCreate p.processor_])

/-- Embeds `Processor::create_vad_context` (src/src/aic.cpp): the creation
pattern over `aic_vad_context_create`. -/
def Processor.create_vad_context (eng : Engine) (p : Processor) :
    Result VadContext × List AicCall :=
  let r := eng.vadContextCreate p.processor_
  if r.1 = AIC_ERROR_CODE_SUCCESS then
    (⟨⟨r.2⟩, ErrorCode.Success⟩, [AicCall.vadContextCreate p.processor_])
  else
    (⟨⟨none⟩, ⟨r.1⟩⟩, [AicCall.vadContextCreate p.processor_])

/-- Embeds the destructor `Processor::~Processor`. -/
def Processor.dtor (p : Processor) : List AicCall :=
  match p.processor_ with
  | some h => [AicCall.processorDestroy h]
  | none => []

/-- Embeds the move constructor `Processor(Processor&&)`. -/
def Processor.move_ctor (other : Processor) : Processor × Processor :=
  (⟨other.processor_⟩, ⟨none⟩)

/-- Embeds `Processor& operator=(Processor&&)`; see `Model.move_assign` for
the reading of `same`. -/
def Processor.move_assign (self other : Processor) (same : Bool) :
    Processor × Processor × List AicCall :=
  if same then (self, other, [])
  else
    (⟨other.processor_⟩, ⟨none⟩,
      match self.processor_ with
      | some h => [AicCall.processorDestroy h]
      | none => [])

/-- An address-indexed store of the live wrapper objects of one wrapper
class: each C++ object address holds the nullable raw handle of the object
living there (`none` both for an empty wrapper and for an address holding no
object). All four wrapper classes (`Model`, `Processor`, `ProcessorContext`,
`VadContext`) implement the identical destructor, move-constructor and
move-assignment pattern over their single handle member, so the lifetime
analysis is stated once over this store. -/
abbrev Store := Nat → Ptr

/-- No two addresses hold the same raw handle. -/
def Store.Distinct (s : Store) : Prop :=
  ∀ a b h, s a = some h → s b = some h → a = b

/-- A lifetime operation of the public API of one wrapper class, at object
addresses: destruction, move construction of a fresh object from a source,
move assignment. Copy construction and copy assignment do not appear: the
source deletes both (`Model(const Model&) = delete` and likewise in the other
three classes), so no public operation can duplicate a handle. -/
inductive OwnOp where
  | dtor (a : Nat)
  | moveCtor (dst : Nat) (src : Nat)
  | moveAssign (dst : Nat) (src : Nat)
  deriving DecidableEq, Repr

/-- The handles passed to the matching `aic_*_destroy` by one operation:
destruction and non-self move assignment destroy the currently owned handle
when there is one; move construction and self-move-assignment destroy
nothing. -/
def destroyedBy (s : Store) : OwnOp → List Handle
  | .dtor a => Option.toList (s a)
  | .moveCtor _ _ => []
  | .moveAssign dst src => if dst = src then [] else Option.toList (s dst)

/-- The store after one operation: destruction clears the address, a move
transfers the handle to the destination and nulls the source, and
self-move-assignment (the `this == &other` test in the source) leaves the
store unchanged. -/
def applyOp (s : Store) : OwnOp → Store
  | .dtor a => fun x => if x = a then none else s x
  | .moveCtor dst src => fun x => if x = dst then s src else if x = src then none else s x
  | .moveAssign dst src => fun x =>
    if dst = src then s x
    else if x = dst then s src else if x = src then none else s x

/-- Runs a sequence of lifetime operations, returning the final store and the
concatenation, in order, of the handles destroyed along the way. -/
def runOps (s : Store) : List OwnOp → Store × List Handle
  | [] => (s, [])
  | op :: rest =>
    let tail := runOps (applyOp s op) rest
    (tail.1, destroyedBy s op ++ tail.2)

/-- In the transferred store of a move, every handle comes from the original
store. -/
theorem move_shape_mem {s : Store} {dst src x : Nat} {h : Handle}
    (hx : (if x = dst then s src else if x = src then none else s x) = some h) :
    ∃ y, s y = some h := by
  by_cases h1 : x = dst
  · rw [if_pos h1] at hx
    exact ⟨src, hx⟩
  · rw [if_neg h1] at hx
    by_cases h2 : x = src
    · rw [if_pos h2] at hx
      exact Option.noConfusion hx
    · rw [if_neg h2] at hx
      exact ⟨x, hx⟩

/-- The transferred store of a move keeps distinct handles distinct. -/
theorem move_shape_distinct {s : Store} (hd : Store.Distinct s) (dst src : Nat) :
    ∀ a b h, (if a = dst then s src else if a = src then none else s a) = some h →
      (if b = dst then s src else if b = src then none else s b) = some h → a = b := by
  intro a b h ha hb
  by_cases ha1 : a = dst
  · rw [if_pos ha1] at ha
    by_cases hb1 : b = dst
    · rw [ha1, hb1]
    · rw [if_neg hb1] at hb
      by_cases hb2 : b = src
      · rw [if_pos hb2] at hb
        exact Option.noConfusion hb
      · rw [if_neg hb2] at hb
        exact absurd (hd src b h ha hb).symm hb2
  · rw [if_neg ha1] at ha
    by_cases ha2 : a = src
    · rw [if_pos ha2] at ha
      exact Option.noConfusion ha
    · rw [if_neg ha2] at ha
      by_cases hb1 : b = dst
      · rw [if_pos hb1] at hb
        exact absurd (hd a src h ha hb) ha2
      · rw [if_neg hb1] at hb
        by_cases hb2 : b = src
        · rw [if_pos hb2] at hb
          exact Option.noConfusion hb
        · rw [if_neg hb2] at hb
          exact hd a b h ha hb

/-- After a genuine (non-self) move assignment, the destroyed handle of the
destination is owned by no object. -/
theorem move_shape_not_some {s : Store} (hd : Store.Distinct s) {dst src : Nat}
    (hds : ¬dst = src) {h : Handle} (hmem : s dst = some h) (x : Nat) :
    (if x = dst then s src else if x = src then none else s x) ≠ some h := by
  by_cases h1 : x = dst
  · rw [if_pos h1]
    intro hc
    exact hds (hd dst src h hmem hc)
  · rw [if_neg h1]
    by_cases h2 : x = src
    · rw [if_pos h2]
      exact fun hc => Option.noConfusion hc
    · rw [if_neg h2]
      exact fun hc => h1 (hd x dst h hc hmem)

/-- A handle present after an operation was already present before it:
no lifetime operation mints a handle. -/
theorem applyOp_mem {s : Store} {op : OwnOp} {x : Nat} {h : Handle}
    (hx : applyOp s op x = some h) : ∃ y, s y = some h := by
  cases op with
  | dtor a =>
    simp only [applyOp] at hx
    by_cases h1 : x = a
    · rw [if_pos h1] at hx
      exact Option.noConfusion hx
    · rw [if_neg h1] at hx
      exact ⟨x, hx⟩
  | moveCtor dst src =>
    simp only [applyOp] at hx
    exact move_shape_mem hx
  | moveAssign dst src =>
    simp only [applyOp] at hx
    by_cases hds : dst = src
    · rw [if_pos hds] at hx
      exact ⟨x, hx⟩
    · rw [if_neg hds] at hx
      exact move_shape_mem hx

/-- Handle distinctness is preserved by every lifetime operation. -/
theorem applyOp_distinct {s : Store} (hd : Store.Distinct s) (op : OwnOp) :
    Store.Distinct (applyOp s op) := by
  cases op with
  | dtor a0 =>
    intro a b h ha hb
    simp only [applyOp] at ha hb
    by_cases ha1 : a = a0
    · rw [if_pos ha1] at ha
      exact Option.noConfusion ha
    · rw [if_neg ha1] at ha
      by_cases hb1 : b = a0
      · rw [if_pos hb1] at hb
        exact Option.noConfusion hb
      · rw [if_neg hb1] at hb
        exact hd a b h ha hb
  | moveCtor dst src =>
    intro a b h ha hb
    simp only [applyOp] at ha hb
    exact move_shape_distinct hd dst src a b h ha hb
  | moveAssign dst src =>
    intro a b h ha hb
    simp only [applyOp] at ha hb
    by_cases hds : dst = src
    · rw [if_pos hds] at ha hb
      exact hd a b h ha hb
    · rw [if_neg hds] at ha hb
      exact move_shape_distinct hd dst src a b h ha hb

/-- In a distinct store, a handle destroyed by an operation is owned by no
object once the operation has run. -/
theorem destroyed_not_after {s : Store} (hd : Store.Distinct s) {op : OwnOp} {h : Handle}
    (hmem : h ∈ destroyedBy s op) (x : Nat) : applyOp s op x ≠ some h := by
  cases op with
  | dtor a =>
    simp only [destroyedBy, Option.mem_toList] at hmem
    simp only [applyOp]
    by_cases h1 : x = a
    · rw [if_pos h1]
      exact fun hc => Option.noConfusion hc
    · rw [if_neg h1]
      exact fun hc => h1 (hd x a h hc hmem)
  | moveCtor dst src =>
    simp only [destroyedBy, List.not_mem_nil] at hmem
  | moveAssign dst src =>
    by_cases hds : dst = src
    · simp only [destroyedBy, if_pos hds, List.not_mem_nil] at hmem
    · simp only [destroyedBy, if_neg hds, Option.mem_toList] at hmem
      simp only [applyOp, if_neg hds]
      exact move_shape_not_some hd hds hmem x

/-- Every handle in the destroy trace of a run was owned at the start of the
run. -/
theorem runOps_trace_mem {h : Handle} :
    ∀ (ops : List OwnOp) (s : Store), h ∈ (runOps s ops).2 → ∃ y, s y = some h := by
  intro ops
  induction ops with
  | nil =>
    intro s hmem
    simp only [runOps, List.not_mem_nil] at hmem
  | cons op rest ih =>
    intro s hmem
    simp only [runOps, List.mem_append] at hmem
    cases hmem with
    | inl hd0 =>
      cases op with
      | dtor a =>
        simp only [destroyedBy, Option.mem_toList] at hd0
        exact ⟨a, hd0⟩
      | moveCtor dst src =>
        simp only [destroyedBy, List.not_mem_nil] at hd0
      | moveAssign dst src =>
        by_cases hds : dst = src
        · simp only [destroyedBy, if_pos hds, List.not_mem_nil] at hd0
        · simp only [destroyedBy, if_neg hds, Option.mem_toList] at hd0
          exact ⟨dst, hd0⟩
    | inr htail =>
      rcases ih (applyOp s op) htail with ⟨y, hy⟩
      exact applyOp_mem hy

/-- The destroy trace of one operation never repeats a handle. -/
theorem destroyedBy_nodup (s : Store) (op : OwnOp) : (destroyedBy s op).Nodup := by
  cases op with
  | dtor a =>
    cases hsa : s a <;> simp [destroyedBy, hsa]
  | moveCtor dst src =>
    simp [destroyedBy]
  | moveAssign dst src =>
    by_cases hds : dst = src
    · simp [destroyedBy, hds]
    · cases hsd : s dst <;> simp [destroyedBy, hds, hsd]

/-- Starting from a distinct store, a run of lifetime operations destroys
each handle at most once. -/
theorem runOps_trace_nodup :
    ∀ (ops : List OwnOp) (s : Store), Store.Distinct s → ((runOps s ops).2).Nodup := by
  intro ops
  induction ops with
  | nil =>
    intro s _
    simp [runOps]
  | cons op rest ih =>
    intro s hd
    simp only [runOps]
    refine List.Nodup.append (destroyedBy_nodup s op) (ih (applyOp s op) (applyOp_distinct hd op)) ?_
    intro h hmem hmem2
    rcases runOps_trace_mem rest (applyOp s op) hmem2 with ⟨y, hy⟩
    exact destroyed_not_after hd hmem y hy

/-- Starting from a distinct store, the store stays distinct through any run
of lifetime operations. -/
theorem runOps_distinct :
    ∀ (ops : List OwnOp) (s : Store), Store.Distinct s → Store.Distinct ((runOps s ops).1) := by
  intro ops
  induction ops with
  | nil =>
    intro s hd
    simpa [runOps] using hd
  | cons op rest ih =>
    intro s hd
    simpa [runOps] using ih (applyOp s op) (applyOp_distinct hd op)

/-- A concrete engine for evaluating the wrapper at specific inputs: every
call returns the status `rc`; handle out parameters receive `h`, numeric out
parameters `w`, float out parameters `f`, bool out parameters `b`, and
`aic_model_get_id` returns `s`. -/
def constEngine (rc : Int) (h : Ptr) (w : Option Nat) (f : Option CFloat)
    (b : Option Bool) (s : Option String) : Engine where
  modelCreateFromFile := fun _ => (rc, h)
  modelCreateFromBuffer := fun _ _ => (rc, h)
  modelGetId := fun _ => s
  modelGetOptimalSampleRate := fun _ => (rc, w)
  modelGetOptimalNumFrames := fun _ _ => (rc, w)
  processorCreate := fun _ _ => (rc, h)
  processorInitialize := fun _ _ _ _ _ => rc
  processorProcessPlanar := fun _ _ _ _ => rc
  processorProcessInterleaved := fun _ _ _ _ => rc
  processorProcessSequential := fun _ _ _ _ => rc
  processorContextCreate := fun _ => (rc, h)
  processorContextReset := fun _ => rc
  processorContextSetParameter := fun _ _ _ => rc
  processorContextGetParameter := fun _ _ => (rc, f)
  processorContextGetOutputDelay := fun _ => (rc, w)
  vadContextCreate := fun _ => (rc, h)
  vadContextIsSpeechDetected := fun _ => (rc, b)
  vadContextSetParameter := fun _ _ _ => rc
  vadContextGetParameter := fun _ _ => (rc, f)

/-- A concrete engine on which every call succeeds. -/
def engOk : Engine := constEngine AIC_ERROR_CODE_SUCCESS (some 5) (some 48000) (some 3)
  (some true) (some "model-id")

/-- A concrete engine on which every call fails with an internal error and no
out parameter is written. -/
def engBad : Engine := constEngine AIC_ERROR_CODE_INTERNAL_ERROR none none none none none

/-- A concrete engine modelling an engine whose processors were never
successfully initialised: every call reports
`AIC_ERROR_CODE_MODEL_NOT_INITIALIZED` and writes nothing. -/
def engUninit : Engine := constEngine AIC_ERROR_CODE_MODEL_NOT_INITIALIZED none none none
  none none

/-- A concrete two-object store: the wrapper at address 0 owns handle 7 and
the wrapper at address 2 owns handle 9. -/
def sampleStore : Store := fun a => if a = 0 then some 7 else if a = 2 then some 9 else none

/-- The creation contract of claim C2, stated from the claim's words for one
creation call: `r` is the returned `Result`, `handleOf` projects the wrapped
raw handle out of the wrapper type, `rc` is the status code the underlying C
creation call returned and `raw` the handle it produced. -/
def CreationContract {T : Type} (r : Result T) (handleOf : T → Ptr) (rc : Int)
    (raw : Ptr) : Prop :=
  (r.ok = true ↔ rc = AIC_ERROR_CODE_SUCCESS)
  ∧ (rc = AIC_ERROR_CODE_SUCCESS → handleOf r.value = raw ∧ r.error = ErrorCode.Success)
  ∧ (rc ≠ AIC_ERROR_CODE_SUCCESS → handleOf r.value = none ∧ r.error.val = rc)

/-- `Model::create_from_file` satisfies the creation contract. -/
theorem create_from_file_contract (eng : Engine) (path : String) :
    CreationContract (Model.create_from_file eng path).1 Model.model_
      (eng.modelCreateFromFile path).1 (eng.modelCreateFromFile path).2 := by
  by_cases hrc : (eng.modelCreateFromFile path).1 = AIC_ERROR_CODE_SUCCESS <;>
    simp [CreationContract, Model.create_from_file, Result.ok, hrc, ErrorCode.Success]

/-- `Model::create_from_buffer` satisfies the creation contract. -/
theorem create_from_buffer_contract (eng : Engine) (buffer : Ptr) (len : Nat) :
    CreationContract (Model.create_from_buffer eng buffer len).1 Model.model_
      (eng.modelCreateFromBuffer buffer len).1 (eng.modelCreateFromBuffer buffer len).2 := by
  by_cases hrc : (eng.modelCreateFromBuffer buffer len).1 = AIC_ERROR_CODE_SUCCESS <;>
    simp [CreationContract, Model.create_from_buffer, Result.ok, hrc, ErrorCode.Success]

/-- `Processor::create` satisfies the creation contract. -/
theorem processor_create_contract (eng : Engine) (m : Model) (key : String) :
    CreationContract (Processor.create eng m key).1 Processor.processor_
      (eng.processorCreate m.model_ key).1 (eng.processorCreate m.model_ key).2 := by
  by_cases hrc : (eng.processorCreate m.model_ key).1 = AIC_ERROR_CODE_SUCCESS <;>
    simp [CreationContract, Processor.create, Result.ok, hrc, ErrorCode.Success]

/-- `Processor::create_context` satisfies the creation contract. -/
theorem create_context_contract (eng : Engine) (p : Processor) :
    CreationContract (Processor.create_context eng p).1 ProcessorContext.context_
      (eng.processorContextCreate p.processor_).1 (eng.processorContextCreate p.processor_).2 := by
  by_cases hrc : (eng.processorContextCreate p.processor_).1 = AIC_ERROR_CODE_SUCCESS <;>
    simp [CreationContract, Processor.create_context, Result.ok, hrc, ErrorCode.Success]

/-- `Processor::create_vad_context` satisfies the creation contract. -/
theorem create_vad_context_contract (eng : Engine) (p : Processor) :
    CreationContract (Processor.create_vad_context eng p).1 VadContext.context_
      (eng.vadContextCreate p.processor_).1 (eng.vadContextCreate p.processor_).2 := by
  by_cases hrc : (eng.vadContextCreate p.processor_).1 = AIC_ERROR_CODE_SUCCESS <;>
    simp [CreationContract, Processor.create_vad_context, Result.ok, hrc, ErrorCode.Success]

/-- C1: every `ErrorCode`-returning wrapper method (`Processor::initialize`,
the three `Processor::process_*` methods, `ProcessorContext::reset`,
`ProcessorContext::set_parameter`, `VadContext::set_parameter`) returns an
`aic::ErrorCode` numerically equal to the `AicErrorCode` status returned by
the underlying C call: the `static_cast` chain through `int` is the identity
on the integer value, for every engine response (hence every possible status
code) and all arguments. -/
theorem c1_error_code_cast_is_identity (eng : Engine) (p : Processor)
    (c : ProcessorContext) (v : VadContext) (pp : ProcessorParameter)
    (vp : VadParameter) (sr nc nf : Nat) (avf : Bool) (audio : Ptr) (x : CFloat) :
    ( Processor.initialize eng p sr nc nf avf).1.val
        = eng.processorInitialize p.processor_ sr nc nf avf
    ∧ (Processor.process_planar eng p audio nc nf).1.val
        = eng.processorProcessPlanar p.processor_ audio nc nf
    ∧ (Processor.process_interleaved eng p audio nc nf).1.val
        = eng.processorProcessInterleaved p.processor_ audio nc nf
    ∧ (Processor.process_sequential eng p audio nc nf).1.val
        = eng.processorProcessSequential p.processor_ audio nc nf
    ∧ (ProcessorContext.reset eng c).1.val = eng.processorContextReset c.context_
    ∧ (ProcessorContext.set_parameter eng c pp x).1.val
        = eng.processorContextSetParameter c.context_ pp.val x
    ∧ (VadContext.set_parameter eng v vp x).1.val
        = eng.vadContextSetParameter v.context_ vp.val x :=
  ⟨rfl, rfl, rfl, rfl, rfl, rfl, rfl⟩

/-- C2: every `Result`-returning creation function (`Model::create_from_file`,
`Model::create_from_buffer`, `Processor::create`,
`Processor::create_context`, `Processor::create_vad_context`) returns a
`Result` that is `ok()` exactly when the underlying C creation call returned
`AIC_ERROR_CODE_SUCCESS`; on success the `Result` wraps the handle the C call
produced with error `Success`, and on failure its value is an empty wrapper
holding a null handle and its error is the translated status code. -/
theorem c2_creation_result_contract (eng : Engine) (path : String) (buffer : Ptr)
    (len : Nat) (m : Model) (key : String) (p : Processor) :
    CreationContract (Model.create_from_file eng path).1 Model.model_
      (eng.modelCreateFromFile path).1 (eng.modelCreateFromFile path).2
    ∧ CreationContract (Model.create_from_buffer eng buffer len).1 Model.model_
      (eng.modelCreateFromBuffer buffer len).1 (eng.modelCreateFromBuffer buffer len).2
    ∧ CreationContract (Processor.create eng m key).1 Processor.processor_
      (eng.processorCreate m.model_ key).1 (eng.processorCreate m.model_ key).2
    ∧ CreationContract (Processor.create_context eng p).1 ProcessorContext.context_
      (eng.processorContextCreate p.processor_).1 (eng.processorContextCreate p.processor_).2
    ∧ CreationContract (Processor.create_vad_context eng p).1 VadContext.context_
      (eng.vadContextCreate p.processor_).1 (eng.vadContextCreate p.processor_).2 :=
  ⟨create_from_file_contract eng path, create_from_buffer_contract eng buffer len,
    processor_create_contract eng m key, create_context_contract eng p,
    create_vad_context_contract eng p⟩

/-- Witness for C2: the contract evaluated on a concrete succeeding engine
(the created wrapper holds the engine's handle 5 and is `ok()`) and on a
concrete failing engine (the error value is the engine's status 7). -/
theorem c2_creation_result_contract_witness :
    (Model.create_from_file engOk "model.aic").1.ok = true
    ∧ (Model.create_from_file engOk "model.aic").1.value.model_ = some 5
    ∧ (Model.create_from_file engBad "model.aic").1.value.model_ = none
    ∧ (Model.create_from_file engBad "model.aic").1.error.val = 7 := by
  have hs := (c2_creation_result_contract engOk "model.aic" none 0 ⟨none⟩ "k" ⟨none⟩).1
  have hf := (c2_creation_result_contract engBad "model.aic" none 0 ⟨none⟩ "k" ⟨none⟩).1
  exact ⟨hs.1.mpr (by decide), (hs.2.1 (by decide)).1, (hf.2.2 (by decide)).1,
    (hf.2.2 (by decide)).2⟩

/-- C8: a default-constructed `Result<T>` is never `ok()`: its error field is
`ErrorCode::InternalError`, an enumerator distinct from `ErrorCode::Success`,
and its value field is the default-constructed value of `T`. -/
theorem c8_default_result_not_ok (T : Type) (inst : Inhabited T) :
    (Result.mkDefault T).ok = false
    ∧ (Result.mkDefault T).error = ErrorCode.InternalError
    ∧ (Result.mkDefault T).value = default :=
  ⟨rfl, rfl, rfl⟩

/-- C10: `ProcessorConfig::optimal` returns a config whose `sample_rate` is
the model's optimal sample rate, whose `num_frames` is the model's optimal
frame count queried at that sample rate, with `num_channels = 1` and
`allow_variable_frames = false`; `with_num_channels` returns a copy identical
except for `num_channels` and `with_allow_variable_frames` a copy identical
except for `allow_variable_frames` (both are `const` member functions of an
immutable value here, so the receiver is unchanged). -/
theorem c10_processor_config_builders (eng : Engine) (model : Model)
    (cfg : ProcessorConfig) (channels : Nat) (allow : Bool) :
    ((ProcessorConfig.optimal eng model).1.sample_rate
        = (Model.get_optimal_sample_rate eng model).1
      ∧ (ProcessorConfig.optimal eng model).1.num_frames
        = (Model.get_optimal_num_frames eng model
            (Model.get_optimal_sample_rate eng model).1).1
      ∧ (ProcessorConfig.optimal eng model).1.num_channels = 1
      ∧ (ProcessorConfig.optimal eng model).1.allow_variable_frames = false)
    ∧ ((ProcessorConfig.with_num_channels cfg channels).num_channels = channels
      ∧ (ProcessorConfig.with_num_channels cfg channels).sample_rate = cfg.sample_rate
      ∧ (ProcessorConfig.with_num_channels cfg channels).num_frames = cfg.num_frames
      ∧ (ProcessorConfig.with_num_channels cfg channels).allow_variable_frames
        = cfg.allow_variable_frames)
    ∧ ((ProcessorConfig.with_allow_variable_frames cfg allow).allow_variable_frames = allow
      ∧ (ProcessorConfig.with_allow_variable_frames cfg allow).sample_rate = cfg.sample_rate
      ∧ (ProcessorConfig.with_allow_variable_frames cfg allow).num_channels
        = cfg.num_channels
      ∧ (ProcessorConfig.with_allow_variable_frames cfg allow).num_frames
        = cfg.num_frames) :=
  ⟨⟨rfl, rfl, rfl, rfl⟩, ⟨rfl, rfl, rfl, rfl⟩, ⟨rfl, rfl, rfl, rfl⟩⟩

/-- Counterexample to C3 as stated: at a concrete processor and buffer the
three audio-layout methods do not invoke one and the same `aic_*` entry
point — the calls they emit go to pairwise different entry points. -/
theorem c3_counterexample_distinct_entry_points :
    List.map AicCall.entry (Processor.process_planar engOk ⟨some 1⟩ (some 2) 1 480).2
      ≠ List.map AicCall.entry (Processor.process_interleaved engOk ⟨some 1⟩ (some 2) 1 480).2
    ∧ List.map AicCall.entry (Processor.process_interleaved engOk ⟨some 1⟩ (some 2) 1 480).2
      ≠ List.map AicCall.entry (Processor.process_sequential engOk ⟨some 1⟩ (some 2) 1 480).2
    ∧ List.map AicCall.entry (Processor.process_planar engOk ⟨some 1⟩ (some 2) 1 480).2
      ≠ List.map AicCall.entry (Processor.process_sequential engOk ⟨some 1⟩ (some 2) 1 480).2 := by
  refine ⟨?_, ?_, ?_⟩ <;> decide

/-- C3 amended: each of the three audio-layout methods forwards its processor
handle and its buffer, channel and frame arguments unchanged to its own
dedicated layout-specific C entry point — `aic_processor_process_planar`,
`aic_processor_process_interleaved` and `aic_processor_process_sequential`
respectively, three pairwise distinct entry points rather than one shared
one — and each translates the status it gets back by the identity cast. -/
theorem c3_layout_methods_forward_to_layout_calls (eng : Engine) (p : Processor)
    (audio : Ptr) (nc nf : Nat) :
    ((Processor.process_planar eng p audio nc nf).2
        = [AicCall.processorProcessPlanar p.processor_ audio nc nf]
      ∧ (Processor.process_planar eng p audio nc nf).1.val
        = eng.processorProcessPlanar p.processor_ audio nc nf)
    ∧ ((Processor.process_interleaved eng p audio nc nf).2
        = [AicCall.processorProcessInterleaved p.processor_ audio nc nf]
      ∧ (Processor.process_interleaved eng p audio nc nf).1.val
        = eng.processorProcessInterleaved p.processor_ audio nc nf)
    ∧ ((Processor.process_sequential eng p audio nc nf).2
        = [AicCall.processorProcessSequential p.processor_ audio nc nf]
      ∧ (Processor.process_sequential eng p audio nc nf).1.val
        = eng.processorProcessSequential p.processor_ audio nc nf)
    ∧ AicCall.entry (AicCall.processorProcessPlanar p.processor_ audio nc nf)
        ≠ AicCall.entry (AicCall.processorProcessInterleaved p.processor_ audio nc nf)
    ∧ AicCall.entry (AicCall.processorProcessInterleaved p.processor_ audio nc nf)
        ≠ AicCall.entry (AicCall.processorProcessSequential p.processor_ audio nc nf)
    ∧ AicCall.entry (AicCall.processorProcessPlanar p.processor_ audio nc nf)
        ≠ AicCall.entry (AicCall.processorProcessSequential p.processor_ audio nc nf) := by
  refine ⟨⟨rfl, rfl⟩, ⟨rfl, rfl⟩, ⟨rfl, rfl⟩, ?_, ?_, ?_⟩ <;>
    exact fun hc => AicEntry.noConfusion hc

/-- Counterexample to C4 as stated: on a concrete processor that the engine
reports as not initialised, a process call is not rejected by the wrapper —
each of the three methods still emits its engine call (the call list is
nonempty, so the call does reach the underlying engine) and merely returns
the engine's `ModelNotInitialized` status. -/
theorem c4_counterexample_process_reaches_engine :
    engUninit.processorProcessPlanar (some 1) (some 2) 1 480
        = AIC_ERROR_CODE_MODEL_NOT_INITIALIZED
    ∧ (Processor.process_planar engUninit ⟨some 1⟩ (some 2) 1 480).2 ≠ []
    ∧ (Processor.process_planar engUninit ⟨some 1⟩ (some 2) 1 480).1
        = ErrorCode.ModelNotInitialized
    ∧ (Processor.process_interleaved engUninit ⟨some 1⟩ (some 2) 1 480).2 ≠ []
    ∧ (Processor.process_sequential engUninit ⟨some 1⟩ (some 2) 1 480).2 ≠ [] := by
  refine ⟨rfl, ?_, rfl, ?_, ?_⟩ <;> decide

/-- C4 amended: the wrapper itself performs no initialize-before-process
check. The `Processor` wrapper records no initialisation state (its only data
member is the raw handle) and each `process_*` method unconditionally
forwards exactly one call to the underlying engine, whatever the history of
`initialize`, returning the engine's status unchanged; the ordering rule is
enforced by the engine, which reports `ModelNotInitialized`, not by the
wrapper. -/
theorem c4_process_forwards_unconditionally (eng : Engine) (p : Processor)
    (audio : Ptr) (nc nf : Nat) :
    (Processor.process_planar eng p audio nc nf).2.length = 1
    ∧ (Processor.process_interleaved eng p audio nc nf).2.length = 1
    ∧ (Processor.process_sequential eng p audio nc nf).2.length = 1
    ∧ (Processor.process_planar eng p audio nc nf).1.val
        = eng.processorProcessPlanar p.processor_ audio nc nf
    ∧ (Processor.process_interleaved eng p audio nc nf).1.val
        = eng.processorProcessInterleaved p.processor_ audio nc nf
    ∧ (Processor.process_sequential eng p audio nc nf).1.val
        = eng.processorProcessSequential p.processor_ audio nc nf :=
  ⟨rfl, rfl, rfl, rfl, rfl, rfl⟩

/-- The two handles of the concrete sample store are distinctly owned. -/
theorem sampleStore_distinct : Store.Distinct sampleStore := by
  intro a b h ha hb
  simp only [sampleStore] at ha hb
  split_ifs at ha hb <;>
    first
      | omega
      | exact Option.noConfusion ha
      | exact Option.noConfusion hb
      | (injection ha with ha2; injection hb with hb2; subst ha2; exact absurd hb2 (by decide))

/-- C5: each owning wrapper holds exactly one handle and destroys it via the
matching `aic_*_destroy` exactly when the stored handle is nonnull; move
construction transfers the handle and nulls the source; non-self move
assignment destroys the currently owned handle (exactly the destructor's
calls) and then transfers and nulls the source; self-move-assignment leaves
both objects unchanged and destroys nothing; and along any run of lifetime
operations over a store of distinctly-owned handles, every handle is
destroyed at most once. -/
theorem c5_handle_lifetime_and_single_destroy (h : Handle) (m m2 : Model)
    (pc pc2 : ProcessorContext) (vc vc2 : VadContext) (p p2 : Processor)
    (s : Store) (ops : List OwnOp) :
    (Model.dtor ⟨some h⟩ = [AicCall.modelDestroy h] ∧ Model.dtor ⟨none⟩ = [])
    ∧ (ProcessorContext.dtor ⟨some h⟩ = [AicCall.processorContextDestroy h]
      ∧ ProcessorContext.dtor ⟨none⟩ = [])
    ∧ (VadContext.dtor ⟨some h⟩ = [AicCall.vadContextDestroy h]
      ∧ VadContext.dtor ⟨none⟩ = [])
    ∧ (Processor.dtor ⟨some h⟩ = [AicCall.processorDestroy h] ∧ Processor.dtor ⟨none⟩ = [])
    ∧ Model.move_ctor m = (⟨m.model_⟩, ⟨none⟩)
    ∧ ProcessorContext.move_ctor pc = (⟨pc.context_⟩, ⟨none⟩)
    ∧ VadContext.move_ctor vc = (⟨vc.context_⟩, ⟨none⟩)
    ∧ Processor.move_ctor p = (⟨p.processor_⟩, ⟨none⟩)
    ∧ Model.move_assign m m2 false = (⟨m2.model_⟩, ⟨none⟩, Model.dtor m)
    ∧ ProcessorContext.move_assign pc pc2 false
        = (⟨pc2.context_⟩, ⟨none⟩, ProcessorContext.dtor pc)
    ∧ VadContext.move_assign vc vc2 false = (⟨vc2.context_⟩, ⟨none⟩, VadContext.dtor vc)
    ∧ Processor.move_assign p p2 false = (⟨p2.processor_⟩, ⟨none⟩, Processor.dtor p)
    ∧ Model.move_assign m m2 true = (m, m2, [])
    ∧ ProcessorContext.move_assign pc pc2 true = (pc, pc2, [])
    ∧ VadContext.move_assign vc vc2 true = (vc, vc2, [])
    ∧ Processor.move_assign p p2 true = (p, p2, [])
    ∧ (Store.Distinct s → ((runOps s ops).2).Nodup) :=
  ⟨⟨rfl, rfl⟩, ⟨rfl, rfl⟩, ⟨rfl, rfl⟩, ⟨rfl, rfl⟩, rfl, rfl, rfl, rfl, rfl, rfl, rfl,
    rfl, rfl, rfl, rfl, rfl, fun hd => runOps_trace_nodup ops s hd⟩

/-- Witness for C5: a concrete run — move-construct into address 1 from
address 0 (which owns handle 7), move-assign address 2 (which owns handle 9)
from address 1, then destroy address 2 — destroys handle 9 and then handle 7,
each exactly once. -/
theorem c5_handle_lifetime_witness :
    (runOps sampleStore [OwnOp.moveCtor 1 0, OwnOp.moveAssign 2 1, OwnOp.dtor 2]).2 = [9, 7]
    ∧ ((runOps sampleStore
        [OwnOp.moveCtor 1 0, OwnOp.moveAssign 2 1, OwnOp.dtor 2]).2).Nodup := by
  have hmain := c5_handle_lifetime_and_single_destroy 0 ⟨none⟩ ⟨none⟩ ⟨none⟩ ⟨none⟩ ⟨none⟩
    ⟨none⟩ ⟨none⟩ ⟨none⟩ sampleStore [OwnOp.moveCtor 1 0, OwnOp.moveAssign 2 1, OwnOp.dtor 2]
  refine ⟨by decide, ?_⟩
  exact hmain.2.2.2.2.2.2.2.2.2.2.2.2.2.2.2.2 sampleStore_distinct

/-- C6: parameter access is pure forwarding: `set_parameter` passes the
context handle, the parameter (cast value-preservingly to the C enumeration)
and the float value unchanged to the underlying C setter and returns its
status code value-preservingly; `get_parameter` passes the parameter
unchanged to the underlying C getter and returns exactly the float the
engine wrote into the out parameter. -/
theorem c6_parameter_forwarding (eng : Engine) (c : ProcessorContext)
    (v : VadContext) (pp : ProcessorParameter) (vp : VadParameter) (x w : CFloat) :
    ((ProcessorContext.set_parameter eng c pp x).2
        = [AicCall.processorContextSetParameter c.context_ pp.val x]
      ∧ (ProcessorContext.set_parameter eng c pp x).1.val
        = eng.processorContextSetParameter c.context_ pp.val x)
    ∧ ((ProcessorContext.get_parameter eng c pp).2
        = [AicCall.processorContextGetParameter c.context_ pp.val]
      ∧ ((eng.processorContextGetParameter c.context_ pp.val).2 = some w →
        (ProcessorContext.get_parameter eng c pp).1 = w))
    ∧ ((VadContext.set_parameter eng v vp x).2
        = [AicCall.vadContextSetParameter v.context_ vp.val x]
      ∧ (VadContext.set_parameter eng v vp x).1.val
        = eng.vadContextSetParameter v.context_ vp.val x)
    ∧ ((VadContext.get_parameter eng v vp).2
        = [AicCall.vadContextGetParameter v.context_ vp.val]
      ∧ ((eng.vadContextGetParameter v.context_ vp.val).2 = some w →
        (VadContext.get_parameter eng v vp).1 = w)) := by
  refine ⟨⟨rfl, rfl⟩, ⟨rfl, ?_⟩, ⟨rfl, rfl⟩, ⟨rfl, ?_⟩⟩
  · intro hw
    simp [ProcessorContext.get_parameter, hw]
  · intro hw
    simp [VadContext.get_parameter, hw]

/-- Witness for C6: on a concrete engine that wrote float pattern 3,
`get_parameter` returns 3, and a concrete `set_parameter` returns the
engine's success status. -/
theorem c6_parameter_forwarding_witness :
    (ProcessorContext.get_parameter engOk ⟨some 4⟩ ProcessorParameter.EnhancementLevel).1 = 3
    ∧ (VadContext.set_parameter engOk ⟨some 4⟩ VadParameter.Sensitivity 8).1.val = 0 := by
  have hmain := c6_parameter_forwarding engOk ⟨some 4⟩ ⟨some 4⟩
    ProcessorParameter.EnhancementLevel VadParameter.Sensitivity 8 3
  exact ⟨hmain.2.1.2 (by decide), hmain.2.2.1.2⟩

/-- C7: copy construction and copy assignment are deleted in all four wrapper
classes, so the lifetime operations available through the public API are
exactly destruction, move construction and move assignment — and none of
them can make two live wrapper objects own the same handle: after a move the
handle sits in exactly one of the two objects, and any run of lifetime
operations keeps distinctly-owned handles distinctly owned. -/
theorem c7_unique_ownership (s : Store) (ops : List OwnOp) (m : Model)
    (pc : ProcessorContext) (vc : VadContext) (p : Processor) (h : Handle) :
    (¬((Model.move_ctor m).1.model_ = some h ∧ (Model.move_ctor m).2.model_ = some h))
    ∧ (¬((ProcessorContext.move_ctor pc).1.context_ = some h
        ∧ (ProcessorContext.move_ctor pc).2.context_ = some h))
    ∧ (¬((VadContext.move_ctor vc).1.context_ = some h
        ∧ (VadContext.move_ctor vc).2.context_ = some h))
    ∧ (¬((Processor.move_ctor p).1.processor_ = some h
        ∧ (Processor.move_ctor p).2.processor_ = some h))
    ∧ (Store.Distinct s → Store.Distinct ((runOps s ops).1)) := by
  refine ⟨?_, ?_, ?_, ?_, fun hd => runOps_distinct ops s hd⟩ <;>
    exact fun hc => Option.noConfusion hc.2

/-- Witness for C7: the distinct sample store stays distinct through a
concrete run of moves. -/
theorem c7_unique_ownership_witness :
    Store.Distinct ((runOps sampleStore [OwnOp.moveCtor 1 0, OwnOp.moveAssign 2 1]).1) := by
  exact (c7_unique_ownership sampleStore [OwnOp.moveCtor 1 0, OwnOp.moveAssign 2 1]
    ⟨none⟩ ⟨none⟩ ⟨none⟩ ⟨none⟩ 0).2.2.2.2 sampleStore_distinct

/-- C9: the getters that do not return an `ErrorCode` swallow engine failure
and return a default. `Model::get_id` returns the empty string when the
engine returns a null string; the other getters return whatever sits in
their zero-initialised local after the call — the status code is discarded
(it feeds only a debug-mode `assert`, a no-op in release builds, and never
influences the returned value) — so whenever the C call returns a
non-success status and accordingly left the out parameter unwritten, they
return `0`, `0`, `0.0f`, `0` and `false` respectively. -/
theorem c9_getters_swallow_engine_failure (eng : Engine) (m : Model)
    (c : ProcessorContext) (v : VadContext) (pp : ProcessorParameter) (sr : Nat) :
    (eng.modelGetId m.model_ = none → (Model.get_id eng m).1 = "")
    ∧ (Model.get_optimal_sample_rate eng m).1
        = Option.getD (eng.modelGetOptimalSampleRate m.model_).2 0
    ∧ ((eng.modelGetOptimalSampleRate m.model_).1 ≠ AIC_ERROR_CODE_SUCCESS
        → (eng.modelGetOptimalSampleRate m.model_).2 = none
        → (Model.get_optimal_sample_rate eng m).1 = 0)
    ∧ (Model.get_optimal_num_frames eng m sr).1
        = Option.getD (eng.modelGetOptimalNumFrames m.model_ sr).2 0
    ∧ ((eng.modelGetOptimalNumFrames m.model_ sr).1 ≠ AIC_ERROR_CODE_SUCCESS
        → (eng.modelGetOptimalNumFrames m.model_ sr).2 = none
        → (Model.get_optimal_num_frames eng m sr).1 = 0)
    ∧ (ProcessorContext.get_parameter eng c pp).1
        = Option.getD (eng.processorContextGetParameter c.context_ pp.val).2 0
    ∧ ((eng.processorContextGetParameter c.context_ pp.val).1 ≠ AIC_ERROR_CODE_SUCCESS
        → (eng.processorContextGetParameter c.context_ pp.val).2 = none
        → (ProcessorContext.get_parameter eng c pp).1 = 0)
    ∧ (ProcessorContext.get_output_delay eng c).1
        = Option.getD (eng.processorContextGetOutputDelay c.context_).2 0
    ∧ ((eng.processorContextGetOutputDelay c.context_).1 ≠ AIC_ERROR_CODE_SUCCESS
        → (eng.processorContextGetOutputDelay c.context_).2 = none
        → (ProcessorContext.get_output_delay eng c).1 = 0)
    ∧ (VadContext.is_speech_detected eng v).1
        = Option.getD (eng.vadContextIsSpeechDetected v.context_).2 false
    ∧ ((eng.vadContextIsSpeechDetected v.context_).1 ≠ AIC_ERROR_CODE_SUCCESS
        → (eng.vadContextIsSpeechDetected v.context_).2 = none
        → (VadContext.is_speech_detected eng v).1 = false) := by
  refine ⟨?_, rfl, ?_, rfl, ?_, rfl, ?_, rfl, ?_, rfl, ?_⟩
  · intro hnull
    simp [Model.get_id, hnull]
  · intro _ hw
    simp [Model.get_optimal_sample_rate, hw]
  · intro _ hw
    simp [Model.get_optimal_num_frames, hw]
  · intro _ hw
    simp [ProcessorContext.get_parameter, hw]
  · intro _ hw
    simp [ProcessorContext.get_output_delay, hw]
  · intro _ hw
    simp [VadContext.is_speech_detected, hw]

/-- Witness for C9: on a concrete engine whose every call fails with an
internal error and writes nothing, the getters return their defaults. -/
theorem c9_getters_swallow_engine_failure_witness :
    (Model.get_id engBad ⟨some 1⟩).1 = ""
    ∧ (Model.get_optimal_sample_rate engBad ⟨some 1⟩).1 = 0
    ∧ (ProcessorContext.get_parameter engBad ⟨some 1⟩ ProcessorParameter.Bypass).1 = 0
    ∧ (ProcessorContext.get_output_delay engBad ⟨some 1⟩).1 = 0
    ∧ (VadContext.is_speech_detected engBad ⟨some 1⟩).1 = false := by
  have hmain := c9_getters_swallow_engine_failure engBad ⟨some 1⟩ ⟨some 1⟩ ⟨some 1⟩
    ProcessorParameter.Bypass 48000
  exact ⟨hmain.1 rfl, hmain.2.2.1 (by decide) rfl, hmain.2.2.2.2.2.2.1 (by decide) rfl,
    hmain.2.2.2.2.2.2.2.2.1 (by decide) rfl,
    hmain.2.2.2.2.2.2.2.2.2.2 (by decide) rfl⟩

end AicCpp
